import Mathlib

/-!
Verification of the browserext-lookup backend (src/backend/main.py) against
its natural-language specification.  The Python code is shallowly embedded:
pure helpers become Lean functions, byte buffers become `List Nat`
(Python slicing clamps, as `List.drop`/`List.take` do), JSON values become an
inductive `Json` type, exceptions become `Except` values, and the SQLite
cache keyed by the (extension id, store name) primary key becomes an
association list with upsert semantics.
-/

namespace BrowserExt

/-- The list of risky permissions from `_calculate_permission_score`
(src/backend/main.py lines 333-339), verbatim. -/
def risky_permissions : List String :=
  ["activeTab", "background", "bookmarks", "browsingData", "clipboardRead",
   "clipboardWrite", "contentSettings", "cookies", "debugger", "downloads",
   "geolocation", "history", "management", "nativeMessaging", "notifications",
   "privacy", "proxy", "storage", "tabs", "unlimitedStorage", "webNavigation",
   "webRequest", "webRequestBlocking"]

/-- `_calculate_permission_score` (lines 331-343): start at 0.0 and add 0.5
for every element of the `permissions` list that is in `risky_permissions`.
The Python loop over the list is a left fold. -/
def calculate_permission_score (permissions : List String) : ℚ :=
  permissions.foldl
    (fun score perm =>
      if perm ∈ risky_permissions then score + 1/2 else score) 0

/-- The fold underlying the score, with an explicit accumulator. -/
lemma score_foldl_acc (permissions : List String) (a : ℚ) :
    permissions.foldl
      (fun score perm =>
        if perm ∈ risky_permissions then score + 1/2 else score) a
      = a + (permissions.countP (fun p => p ∈ risky_permissions)) / 2 := by
  induction permissions generalizing a with
  | nil => simp
  | cons p ps ih =>
      by_cases h : p ∈ risky_permissions
      · simp only [List.foldl_cons, List.countP_cons, h, if_pos]
        rw [ih]
        simp [h]
        ring
      · simp only [List.foldl_cons, List.countP_cons, h, if_neg,
          not_false_iff]
        rw [ih]
        simp [h]

/-- The score is half the number of list entries (occurrences, not distinct
names) belonging to the risky catalogue. -/
lemma calculate_permission_score_eq (permissions : List String) :
    calculate_permission_score permissions
      = (permissions.countP (fun p => p ∈ risky_permissions)) / 2 := by
  unfold calculate_permission_score
  rw [score_foldl_acc]
  simp

/-! ## Container decoder: `_process_crx_headers` (lines 254-269)

Byte buffers are `List Nat`.  Python slicing `crx_data[n:]` clamps to the
buffer, exactly as `List.drop`, and never raises; `bytes.startswith`,
`int.from_bytes` and slicing are all total, so the `except` branch of
`_process_crx_headers` (which would re-raise as HTTPException 500
"Invalid CRX file format") is unreachable and the embedded function always
returns `Except.ok`. -/

/-- A raised Python exception, as far as the analysis pipeline is concerned:
either `zipfile.BadZipFile` or a `fastapi.HTTPException` with a status code
and a detail string.  (`HTTPException` subclasses `Exception`, so a blanket
`except Exception` catches it.) -/
inductive PyExn where
  | badZipFile : PyExn
  | httpException (status : Nat) (detail : String) : PyExn
  | attributeError (msg : String) : PyExn
  | typeError (msg : String) : PyExn
deriving DecidableEq, Repr

/-- The error taxonomy §7 of the spec assigns to the container decoder. -/
inductive ContainerError where
  | Truncated : ContainerError
  | UnknownFormat : ContainerError
deriving DecidableEq, Repr

/-- The CRX magic marker, the four bytes of `b'Cr24'`. -/
def crxMagic : List Nat := [0x43, 0x72, 0x32, 0x34]

/-- `int.from_bytes(bs, byteorder='little')`: first byte least significant. -/
def le_bytes (bs : List Nat) : Nat :=
  bs.foldr (fun b acc => b + 256 * acc) 0

/-- `_process_crx_headers` (lines 254-269).  If the buffer starts with the
magic, read the little-endian version (bytes 4:8, computed but unused) and
header length (bytes 8:12) and return `crx_data[12 + header_length + 32:]`;
otherwise return `crx_data[16:]`.  Both slices clamp, so no exception is
ever raised and the function's `except` branch is dead code. -/
def process_crx_headers (crx_data : List Nat) : Except PyExn (List Nat) :=
  if crx_data.take 4 = crxMagic then
    let header_length := le_bytes ((crx_data.drop 8).take 4)
    let zip_start := 12 + header_length + 32
    .ok (crx_data.drop zip_start)
  else
    .ok (crx_data.drop 16)

lemma process_crx_headers_magic (crx_data : List Nat)
    (h : crx_data.take 4 = crxMagic) :
    process_crx_headers crx_data
      = .ok (crx_data.drop (12 + le_bytes ((crx_data.drop 8).take 4) + 32)) := by
  unfold process_crx_headers
  rw [if_pos h]

lemma process_crx_headers_no_magic (crx_data : List Nat)
    (h : crx_data.take 4 ≠ crxMagic) :
    process_crx_headers crx_data = .ok (crx_data.drop 16) := by
  unfold process_crx_headers
  rw [if_neg h]

/-! ## JSON values

`json.loads` produces nested dicts/lists/strings/numbers/booleans/None;
`json.dumps` serializes them back.  A parsed document is a `Json` value;
object field lists come from Python dicts, so their keys are distinct. -/

/-- A parsed JSON document (the value space of Python's `json` module). -/
inductive Json where
  | null : Json
  | bool (b : Bool) : Json
  | num (q : ℚ) : Json
  | str (s : String) : Json
  | arr (elements : List Json) : Json
  | obj (fields : List (String × Json)) : Json

/-- `d.get(key, default)` on a parsed JSON dict (only `obj` carries fields;
the pipeline only calls this after checking the document is a dict). -/
def Json.getD (j : Json) (key : String) (default : Json) : Json :=
  match j with
  | .obj fields =>
      match fields.lookup key with
      | some v => v
      | none => default
  | _ => default

/-! ## `_analyze_crx` (lines 271-329)

The ZIP reader (`zipfile`), the UTF-8/UTF-16 codecs and the JSON parser are
Python standard-library code, not code of this repository, so their combined
outcome on the `manifest.json` entry is a parameter of the embedding: the
entry either decodes and parses to a `Json` document, raises
`json.JSONDecodeError` (malformed), or raises `UnicodeDecodeError` from both
codecs (undecodable).  Opening the archive either raises
`zipfile.BadZipFile` or yields the entry-name list plus that outcome. -/

/-- Outcome of decoding (`utf-8`, falling back to `utf-16`) and JSON-parsing
the bytes of the `manifest.json` entry. -/
inductive ManifestLoad where
  | parsed (document : Json) : ManifestLoad
  | malformed : ManifestLoad
  | undecodable : ManifestLoad

/-- Outcome of `zipfile.ZipFile(zip_path, 'r')` on the processed file. -/
inductive ZipOutcome where
  | badZip : ZipOutcome
  | archive (entries : List String) (manifest : ManifestLoad) : ZipOutcome

/-- The `analysis_results` dict built by `_analyze_crx` (lines 273-278):
`permissions` holds whatever `manifest_json.get('permissions', [])` returned
(any JSON value), `third_party_dependencies` is initialised to the empty
list, `manifest` to None. -/
structure AnalysisResults where
  permissions : Json
  permissions_score : ℚ
  third_party_dependencies : List Json
  manifest : Option Json

/-- `perm in risky_permissions` where `perm` is an arbitrary JSON value:
only an equal string is a member of a list of Python strings. -/
def jsonIsRisky : Json → Bool
  | .str s => s ∈ risky_permissions
  | _ => false

/-- `for perm in permissions`: Python iteration over a JSON value.  A list
yields its elements, a string its characters, a dict its keys; numbers,
booleans and None raise `TypeError` (an `Exception`, so it reaches the
blanket handler at line 325). -/
def jsonIter : Json → Except PyExn (List Json)
  | .arr xs => .ok xs
  | .str s => .ok (s.toList.map (fun c => .str (String.mk [c])))
  | .obj fields => .ok (fields.map (fun kv => .str kv.1))
  | _ => .error (.typeError "argument of type is not iterable")

/-- The scoring loop of `_calculate_permission_score` applied to the JSON
value stored under `permissions` (elements compared against the catalogue
by Python equality). -/
def score_json_perms (perms : List Json) : ℚ :=
  perms.foldl (fun score perm => if jsonIsRisky perm then score + 1/2 else score) 0

lemma score_json_foldl_acc (perms : List Json) (a : ℚ) :
    perms.foldl (fun score perm => if jsonIsRisky perm then score + 1/2 else score) a
      = a + (perms.countP jsonIsRisky) / 2 := by
  induction perms generalizing a with
  | nil => simp
  | cons p ps ih =>
      by_cases h : jsonIsRisky p
      · simp only [List.foldl_cons, List.countP_cons, h, if_pos]
        rw [ih]
        simp [h]
        ring
      · simp only [List.foldl_cons, List.countP_cons, h, if_neg,
          not_false_iff]
        rw [ih]
        simp [h]

lemma score_json_perms_eq (perms : List Json) :
    score_json_perms perms = (perms.countP jsonIsRisky) / 2 := by
  unfold score_json_perms
  rw [score_json_foldl_acc]
  simp

/-- The body of `_analyze_crx` (the `try` block, lines 280-320), with each
`raise` surfaced as the exception it raises: missing `manifest.json` raises
HTTPException 404 (line 315), a JSON parse failure HTTPException 500
"Invalid manifest.json format" (line 309), a decode failure HTTPException
500 "Invalid manifest.json encoding" (line 312); a non-dict document makes
`manifest_json.get` raise `AttributeError`, and a non-iterable
`permissions` value makes the scoring loop raise `TypeError`.  On success
the result dict carries the parsed manifest, the `permissions` value, the
score — and `third_party_dependencies` still at its initial `[]`, which no
statement of the function ever updates. -/
def analyze_crx_body (zip : ZipOutcome) : Except PyExn AnalysisResults :=
  match zip with
  | .badZip => .error .badZipFile
  | .archive entries mload =>
    if "manifest.json" ∈ entries then
      match mload with
      | .malformed => .error (.httpException 500 "Invalid manifest.json format")
      | .undecodable => .error (.httpException 500 "Invalid manifest.json encoding")
      | .parsed mj =>
        match mj with
        | .obj fields =>
          let permissions := Json.getD (.obj fields) "permissions" (.arr [])
          match jsonIter permissions with
          | .error e => .error e
          | .ok perms =>
              .ok { permissions := permissions,
                    permissions_score := score_json_perms perms,
                    third_party_dependencies := [],
                    manifest := some (.obj fields) }
        | _ => .error (.attributeError "object has no attribute get")
    else
      .error (.httpException 404 "manifest.json not found in extension")

/-- `_analyze_crx` as callers see it: the `except` clauses (lines 322-327)
re-raise `zipfile.BadZipFile` as HTTPException 500 "Invalid extension
package" and every other exception — the distinct HTTPExceptions raised
inside the `try` included, since `HTTPException` subclasses `Exception` —
as the generic HTTPException 500 "Extension analysis failed". -/
def analyze_crx (zip : ZipOutcome) : Except PyExn AnalysisResults :=
  match analyze_crx_body zip with
  | .ok r => .ok r
  | .error .badZipFile => .error (.httpException 500 "Invalid extension package")
  | .error _ => .error (.httpException 500 "Extension analysis failed")

/-! ## Analysis cache (lines 45-57, 75-86, 386-402)

The SQLite table `extensions` has `PRIMARY KEY (id, store_name)`, so at most
one row exists per key; it is modelled as an association list with at most
one binding per key.  `_cache_results` runs `INSERT OR REPLACE`, which
deletes any existing row with the key and inserts the new one;
`_get_cached_analysis` runs a `SELECT` on the key and returns
`json.loads(result_blob)` when a row exists (the stored blob
`json.dumps(result)` is never the empty string, so the truthiness guard at
line 83 never rejects an existing row).  The blob round-trips through
`json.dumps`/`json.loads`, so the cache is modelled directly over the
cached value. -/

/-- A cache key: `(extension_id, store_name)`. -/
abbrev CacheKey := String × String

/-- The `extensions` table: at most one `result_blob` value per key. -/
abbrev Cache (α : Type) := List (CacheKey × α)

/-- `_cache_results` (lines 386-402): `INSERT OR REPLACE` on the primary
key — the old row for the key, if any, is deleted and the new row is
inserted whole. -/
def cache_put {α : Type} (c : Cache α) (k : CacheKey) (v : α) : Cache α :=
  (k, v) :: c.filter (fun kv => kv.1 ≠ k)

/-- `_get_cached_analysis` (lines 75-86): `SELECT result_blob ... WHERE
id = ? AND store_name = ?`, parsed back from JSON. -/
def cache_get {α : Type} (c : Cache α) (k : CacheKey) : Option α :=
  (c.find? (fun kv => kv.1 = k)).map Prod.snd

/-! ## `analyze_extension` (lines 136-207)

The orchestrator's external collaborators — the store-page crawler
(`fetch_store_details`), the CRX downloader (`_download_crx`, whose network
request may fail; the buffer it does fetch is processed by
`_process_crx_headers`, written to disk and later opened as a ZIP, which
`ZipOutcome` stands for) and the OpenAI summarizer (`_get_openai_summary`,
which catches every exception internally and always returns a string) — are
parameters of one analysis call.  `datetime.utcnow().isoformat()` is a
string parameter as well. -/

/-- The environment of one `analyze_extension` call: the outcomes of its
collaborators. -/
structure AnalyzeEnv where
  /-- `fetch_store_details`: crawled details, or HTTPException 404
  "Extension not found in store" (line 103). -/
  fetch_store : Except PyExn Json
  /-- `_download_crx`: the processed package (as the ZIP-open outcome on it)
  plus `file_size` and `file_hash`, or HTTPException 500 "Failed to download
  CRX file" (line 252). -/
  download : Except PyExn (ZipOutcome × Nat × String)
  /-- `_get_openai_summary`: always returns a string (lines 382-384). -/
  ai_summary : String
  /-- `datetime.utcnow().isoformat()` at line 163. -/
  analyzed_at : String

/-- The `analysis_results` dict serialized into the combined response. -/
def analysisResultsJson (r : AnalysisResults) : Json :=
  .obj [("permissions", r.permissions),
        ("permissions_score", .num r.permissions_score),
        ("third_party_dependencies", .arr r.third_party_dependencies),
        ("manifest", r.manifest.getD .null)]

/-- The error response returned by the `except` clauses at lines 182-207:
all data fields None and a summary string prefixed "Error:" for an
HTTPException (`str` of a fastapi HTTPException is "status: detail"),
"Unexpected error:" for anything else. -/
def errorResponse (analyzed_at store_name : String) (e : PyExn) : Json :=
  .obj [("extension_details", .null),
        ("analysis_results", .null),
        ("summary", .str (match e with
          | .httpException status detail =>
              "Error: " ++ toString status ++ ": " ++ detail
          | _ => "Unexpected error")),
        ("metadata", .obj [("analyzed_at", .str analyzed_at),
                           ("store", .str store_name),
                           ("file_size", .null),
                           ("file_hash", .null)])]

/-- The combined success response assembled at lines 158-168. -/
def resultDoc (store_details : Json) (r : AnalysisResults) (summary : String)
    (analyzed_at store_name : String) (file_size : Nat) (file_hash : String) : Json :=
  .obj [("extension_details", store_details),
        ("analysis_results", analysisResultsJson r),
        ("summary", .str summary),
        ("metadata", .obj [("analyzed_at", .str analyzed_at),
                           ("store", .str store_name),
                           ("file_size", .num file_size),
                           ("file_hash", .str file_hash)])]

/-- `analyze_extension` (lines 136-207) as a state transition on the cache:
check the cache first and return the cached document on a hit (line
140-142); on a miss run crawler → downloader → `_analyze_crx` in sequence,
any raised exception short-circuiting to the error response of lines
182-207 with no cache write; only on full success is the combined result
`put` into the cache (line 174) and returned. -/
def analyze_extension (env : AnalyzeEnv) (extension_id store_name : String)
    (cache : Cache Json) : Cache Json × Json :=
  match cache_get cache (extension_id, store_name) with
  | some cached => (cache, cached)
  | none =>
    match env.fetch_store with
    | .error e => (cache, errorResponse env.analyzed_at store_name e)
    | .ok store_details =>
      match env.download with
      | .error e => (cache, errorResponse env.analyzed_at store_name e)
      | .ok (zip, file_size, file_hash) =>
        match analyze_crx zip with
        | .error e => (cache, errorResponse env.analyzed_at store_name e)
        | .ok analysis =>
          let result := resultDoc store_details analysis env.ai_summary
            env.analyzed_at store_name file_size file_hash
          (cache_put cache (extension_id, store_name) result, result)

/-! ## Spec-side definitions and concrete fixtures -/

/-- The string elements of a JSON array (a permission list as the manifest
schema intends it). -/
def jsonStrings : Json → List String
  | .arr xs => xs.filterMap (fun j => match j with | .str s => some s | _ => none)
  | _ => []

/-- Modelled from the spec (§4.4 "Union `permissions` and
`optional_permissions` into one set P"): the permission set the specified
scorer is a function of.  Declared only to compare the specified scorer
input against the implemented one — the implementation has no counterpart
of this union. -/
def spec_permission_union (mj : Json) : Finset String :=
  (jsonStrings (mj.getD "permissions" (.arr []))).toFinset ∪
    (jsonStrings (mj.getD "optional_permissions" (.arr []))).toFinset

/-- The permission score the pipeline reports for an archive whose
`manifest.json` parses to `mj`. -/
def pipeline_score (mj : Json) : Option ℚ :=
  match analyze_crx (.archive ["manifest.json"] (.parsed mj)) with
  | .ok r => some r.permissions_score
  | .error _ => none

/-- A manifest declaring no required permissions and one optional
high-risk permission. -/
def manifest_m1 : Json :=
  .obj [("permissions", .arr []), ("optional_permissions", .arr [.str "tabs"])]

/-- A manifest declaring the same permission as `manifest_m1`, but as a
required rather than an optional one — the union P of the two fields is
identical for both manifests. -/
def manifest_m2 : Json :=
  .obj [("permissions", .arr [.str "tabs"]), ("optional_permissions", .arr [])]

/-- The manifest of the end-to-end example of §8: `content_scripts` with
match pattern `https://api.example.com/*`. -/
def exampleManifest : Json :=
  .obj [("content_scripts",
         .arr [.obj [("matches", .arr [.str "https://api.example.com/*"])]])]

/-- A 12-byte buffer: the CRX magic, version 3, header length 100.  The
computed archive offset 12 + 100 + 32 = 144 far exceeds the buffer. -/
def short_crx3_buffer : List Nat :=
  [0x43, 0x72, 0x32, 0x34, 3, 0, 0, 0, 100, 0, 0, 0]

/-- Four zero bytes: no CRX magic, and too short to be any CRX2 container
(which carries a 16-byte prefix). -/
def not_magic_buffer : List Nat := [0, 0, 0, 0]

/-- An environment whose downloader succeeds but delivers an archive with
no `manifest.json` entry, so the analysis stage fails. -/
def no_manifest_env : AnalyzeEnv :=
  { fetch_store := .ok (.obj []),
    download := .ok (.archive ["background.js"] (.parsed .null), 0, ""),
    ai_summary := "",
    analyzed_at := "" }

/-! ## Claim theorems -/

/-- C9: the risk score is monotonic — for permission sets P ⊆ Q (duplicate-
free lists), the score of a manifest declaring P is at most the score of a
manifest declaring Q; adding any permission never decreases the score. -/
theorem permission_score_monotone (p q : List String)
    (hp : p.Nodup) (_hq : q.Nodup) (hsub : p ⊆ q) :
    calculate_permission_score p ≤ calculate_permission_score q := by
  rw [calculate_permission_score_eq, calculate_permission_score_eq]
  have hcount : p.countP (fun s => s ∈ risky_permissions)
      ≤ q.countP (fun s => s ∈ risky_permissions) := by
    rw [List.countP_eq_length_filter, List.countP_eq_length_filter]
    refine List.Subperm.length_le ?_
    refine (hp.filter _).subperm ?_
    intro x hx
    rw [List.mem_filter] at hx ⊢
    exact ⟨hsub hx.1, hx.2⟩
  have hc : ((p.countP (fun s => s ∈ risky_permissions) : ℚ))
      ≤ (q.countP (fun s => s ∈ risky_permissions) : ℚ) := by
    exact_mod_cast hcount
  linarith

/-- Witness for C9 at P = ["storage"], Q = ["storage", "tabs"]. -/
theorem permission_score_monotone_witness :
    (["storage"] : List String).Nodup ∧
    (["storage", "tabs"] : List String).Nodup ∧
    (["storage"] : List String) ⊆ ["storage", "tabs"] ∧
    calculate_permission_score ["storage"]
      ≤ calculate_permission_score ["storage", "tabs"] :=
  ⟨by decide, by decide, by decide,
   permission_score_monotone _ _ (by decide) (by decide) (by decide)⟩

/-- C10: the scoring loop runs over the permissions list, not a set — the
same high-risk permission declared n times contributes 0.5 for each
occurrence, so ["tabs", "tabs"] scores 1.0 while ["tabs"] scores 0.5. -/
theorem permission_score_counts_occurrences :
    (∀ (n : ℕ) (p : String), p ∈ risky_permissions →
        calculate_permission_score (List.replicate n p) = n / 2) ∧
    calculate_permission_score ["tabs", "tabs"] = 1 ∧
    calculate_permission_score ["tabs"] = 1/2 := by
  refine ⟨?_, ?_, ?_⟩
  · intro n p hp
    rw [calculate_permission_score_eq]
    have hcount : (List.replicate n p).countP (fun s => s ∈ risky_permissions)
        = n := by
      rw [List.countP_eq_length_filter]
      simp [List.filter_replicate, hp]
    rw [hcount]
  · have h : (["tabs", "tabs"] : List String).countP
        (fun s => s ∈ risky_permissions) = 2 := by decide
    rw [calculate_permission_score_eq, h]
    norm_num
  · have h : (["tabs"] : List String).countP
        (fun s => s ∈ risky_permissions) = 1 := by decide
    rw [calculate_permission_score_eq, h]
    norm_num

/-- Witness for C10 at n = 2 occurrences of the high-risk permission
"tabs". -/
theorem permission_score_counts_occurrences_witness :
    "tabs" ∈ risky_permissions ∧
    calculate_permission_score (List.replicate 2 "tabs") = ((2 : ℕ) : ℚ) / 2 :=
  ⟨by decide, permission_score_counts_occurrences.1 2 "tabs" (by decide)⟩

/-- C8: the cache is an upsert keyed on (extension_id, store_name) — a
`put` followed by a `get` of the same key returns exactly the stored
result, and a second `put` fully replaces the first (no merge). -/
theorem cache_roundtrip_and_overwrite {α : Type} (c : Cache α) (k : CacheKey)
    (r r1 r2 : α) :
    cache_get (cache_put c k r) k = some r ∧
    cache_get (cache_put (cache_put c k r1) k r2) k = some r2 := by
  constructor <;> simp [cache_get, cache_put]

/-- C7: for every CRX3 buffer — the magic marker followed by a 4-byte
little-endian version field, a 4-byte little-endian header-length field
whose value is h, and the remaining payload — the decoder returns exactly
the suffix of the buffer starting at byte offset 12 + h + 32. -/
theorem crx3_decode_offset (version_bytes hlen_bytes rest : List Nat)
    (hv : version_bytes.length = 4) (hh : hlen_bytes.length = 4) :
    process_crx_headers (crxMagic ++ version_bytes ++ hlen_bytes ++ rest)
      = .ok ((crxMagic ++ version_bytes ++ hlen_bytes ++ rest).drop
          (12 + le_bytes hlen_bytes + 32)) := by
  have hmagic : (crxMagic ++ version_bytes ++ hlen_bytes ++ rest).take 4
      = crxMagic := by
    rw [List.append_assoc, List.append_assoc]
    exact List.take_left' rfl
  have hdrop8 : ((crxMagic ++ version_bytes ++ hlen_bytes ++ rest).drop 8).take 4
      = hlen_bytes := by
    rw [List.append_assoc]
    have hlen8 : (crxMagic ++ version_bytes).length = 8 := by
      simp [crxMagic, hv]
    rw [List.drop_left' hlen8]
    exact List.take_left' hh
  rw [process_crx_headers_magic _ hmagic, hdrop8]

/-- Witness for C7: a concrete CRX3 buffer with version 3, header length 1
and a 35-byte payload; the archive starts at offset 12 + 1 + 32 = 45. -/
theorem crx3_decode_offset_witness :
    ([3, 0, 0, 0] : List Nat).length = 4 ∧
    ([1, 0, 0, 0] : List Nat).length = 4 ∧
    process_crx_headers
        (crxMagic ++ [3, 0, 0, 0] ++ [1, 0, 0, 0] ++ (List.replicate 33 0 ++ [80, 75]))
      = .ok ((crxMagic ++ [3, 0, 0, 0] ++ [1, 0, 0, 0]
            ++ (List.replicate 33 0 ++ [80, 75])).drop
          (12 + le_bytes [1, 0, 0, 0] + 32)) :=
  ⟨rfl, rfl,
   crx3_decode_offset [3, 0, 0, 0] [1, 0, 0, 0] (List.replicate 33 0 ++ [80, 75])
     rfl rfl⟩

/-- C4 counterexample: `short_crx3_buffer` is 12 bytes, far shorter than
its computed archive offset 144, yet the decoder does not fail with a
Truncated error — it returns Ok of the empty archive, exactly what the
claim says never happens. -/
theorem truncated_buffer_returns_empty_archive :
    short_crx3_buffer.length
        < 12 + le_bytes ((short_crx3_buffer.drop 8).take 4) + 32 ∧
    process_crx_headers short_crx3_buffer = .ok [] :=
  ⟨by decide, rfl⟩

/-- C4 as amended: for every buffer shorter than the computed archive
offset of its format (12 + header_length + 32 after the CRX3 magic, 16
otherwise), the decoder does not fail — Python slicing clamps, so it
returns Ok of the empty archive, reading no byte out of bounds. -/
theorem decode_short_buffer_clamps (buf : List Nat)
    (h : buf.length ≤ if buf.take 4 = crxMagic
        then 12 + le_bytes ((buf.drop 8).take 4) + 32 else 16) :
    process_crx_headers buf = .ok [] := by
  by_cases hm : buf.take 4 = crxMagic
  · rw [process_crx_headers_magic _ hm]
    rw [if_pos hm] at h
    rw [List.drop_eq_nil_of_le h]
  · rw [process_crx_headers_no_magic _ hm]
    rw [if_neg hm] at h
    rw [List.drop_eq_nil_of_le h]

/-- Witness for the amended C4 at the concrete 12-byte CRX3 buffer. -/
theorem decode_short_buffer_clamps_witness :
    (short_crx3_buffer.length ≤ if short_crx3_buffer.take 4 = crxMagic
        then 12 + le_bytes ((short_crx3_buffer.drop 8).take 4) + 32 else 16) ∧
    process_crx_headers short_crx3_buffer = .ok [] :=
  ⟨by decide, decode_short_buffer_clamps short_crx3_buffer (by decide)⟩

/-- C3 counterexample: `not_magic_buffer` neither starts with the CRX
magic nor is a valid CRX2 container (it is shorter than the 16-byte CRX2
prefix), yet the decoder does not fail with UnknownFormat — it silently
takes the CRX2 path and returns Ok of the empty archive. -/
theorem unknown_format_decoded_as_crx2 :
    not_magic_buffer.take 4 ≠ crxMagic ∧
    not_magic_buffer.length < 16 ∧
    process_crx_headers not_magic_buffer = .ok [] :=
  ⟨by decide, by decide, rfl⟩

/-- C3 as amended: every buffer whose first 4 bytes differ from the CRX
magic — recognizable CRX2 container or not — is decoded via the CRX2 path
as Ok of the buffer with its first 16 bytes stripped; the decoder has no
UnknownFormat outcome and never fails. -/
theorem non_magic_always_decoded_as_crx2 (buf : List Nat)
    (h : buf.take 4 ≠ crxMagic) :
    process_crx_headers buf = .ok (buf.drop 16) :=
  process_crx_headers_no_magic buf h

/-- Witness for the amended C3 at a 20-byte buffer of sevens. -/
theorem non_magic_always_decoded_as_crx2_witness :
    (List.replicate 20 7 : List Nat).take 4 ≠ crxMagic ∧
    process_crx_headers (List.replicate 20 7)
      = .ok ((List.replicate 20 7 : List Nat).drop 16) :=
  ⟨by decide, non_magic_always_decoded_as_crx2 _ (by decide)⟩

/-- Every successful run of the analysis body leaves
`third_party_dependencies` at its initial empty list: no statement of
`_analyze_crx` ever writes to that key. -/
lemma analyze_crx_body_tpd_empty (zip : ZipOutcome) (r : AnalysisResults)
    (h : analyze_crx_body zip = .ok r) : r.third_party_dependencies = [] := by
  cases zip with
  | badZip => simp [analyze_crx_body] at h
  | archive entries mload =>
    simp only [analyze_crx_body] at h
    split at h
    · cases mload with
      | malformed => simp at h
      | undecodable => simp at h
      | parsed mj =>
        cases mj with
        | obj fields =>
            simp only at h
            split at h
            · simp at h
            · rw [Except.ok.injEq] at h
              rw [← h]
        | null => simp at h
        | bool b => simp at h
        | num q => simp at h
        | str s => simp at h
        | arr elements => simp at h
    · simp at h

/-- C1 counterexample: the end-to-end example of §8 — an archive whose
manifest declares `content_scripts` with match pattern
`https://api.example.com/*` — analyzes successfully, but with
`third_party_dependencies` equal to the empty list, not
{"api.example.com"}. -/
theorem example_manifest_yields_no_dependencies :
    analyze_crx (.archive ["manifest.json"] (.parsed exampleManifest))
      = .ok { permissions := .arr [],
              permissions_score := 0,
              third_party_dependencies := [],
              manifest := some exampleManifest } ∧
    ([] : List Json) ≠ [.str "api.example.com"] := by
  refine ⟨rfl, ?_⟩
  intro h
  exact absurd h (by simp)

/-- C1 as amended: the dependency extractor indeed never fails, but its
result is the empty set for every archive — matching pattern present or
not — because `_analyze_crx` initialises `third_party_dependencies` to []
and never updates it. -/
theorem third_party_dependencies_always_empty (zip : ZipOutcome)
    (r : AnalysisResults) (h : analyze_crx zip = .ok r) :
    r.third_party_dependencies = [] := by
  unfold analyze_crx at h
  cases hb : analyze_crx_body zip with
  | ok r0 =>
      rw [hb] at h
      simp only [Except.ok.injEq] at h
      rw [← h]
      exact analyze_crx_body_tpd_empty zip r0 hb
  | error e =>
      rw [hb] at h
      cases e <;> simp at h

/-- Witness for the amended C1 at an archive holding an empty-object
manifest. -/
theorem third_party_dependencies_always_empty_witness :
    ({ permissions := Json.arr [],
       permissions_score := 0,
       third_party_dependencies := [],
       manifest := some (Json.obj []) } : AnalysisResults).third_party_dependencies
      = [] :=
  third_party_dependencies_always_empty
    (.archive ["manifest.json"] (.parsed (.obj []))) _ rfl

/-- C2 counterexample: `manifest_m1` and `manifest_m2` declare the same
union P = permissions ∪ optional_permissions = {"tabs"}, yet the pipeline
scores them differently (0 versus 0.5) — so the risk score is not computed
over P at all: `optional_permissions` never enter the computation. -/
theorem score_not_computed_over_union :
    spec_permission_union manifest_m1 = spec_permission_union manifest_m2 ∧
    pipeline_score manifest_m1 = some 0 ∧
    pipeline_score manifest_m2 = some (1/2) ∧
    pipeline_score manifest_m1 ≠ pipeline_score manifest_m2 := by
  have h1 : pipeline_score manifest_m1 = some (score_json_perms []) := rfl
  have h2 : pipeline_score manifest_m2
      = some (score_json_perms [.str "tabs"]) := rfl
  have hs1 : score_json_perms ([] : List Json) = 0 := by
    rw [score_json_perms_eq]
    norm_num
  have hs2 : score_json_perms [.str "tabs"] = 1/2 := by
    rw [score_json_perms_eq]
    have : ([Json.str "tabs"].countP jsonIsRisky) = 1 := by decide
    rw [this]
    norm_num
  refine ⟨by decide, ?_, ?_, ?_⟩
  · rw [h1, hs1]
  · rw [h2, hs2]
  · rw [h1, h2, hs1, hs2]
    simp

/-- C2 as amended: the risk score is computed from the manifest's
`permissions` entry alone — `optional_permissions` and every other field
are ignored — and equals 0.5 for each iterated element belonging to the
fixed catalogue, with no ceiling, no divisor beyond the 0.5 weight, and no
contribution from elements outside the catalogue. -/
theorem score_from_permissions_entry_only (fields : List (String × Json))
    (perms : List Json) (r : AnalysisResults)
    (hiter : jsonIter (Json.getD (.obj fields) "permissions" (.arr [])) = .ok perms)
    (h : analyze_crx (.archive ["manifest.json"] (.parsed (.obj fields))) = .ok r) :
    r.permissions_score = (perms.countP jsonIsRisky) / 2 := by
  unfold analyze_crx analyze_crx_body at h
  simp only [List.mem_singleton, if_pos] at h
  rw [hiter] at h
  simp only [Except.ok.injEq] at h
  rw [← h]
  exact score_json_perms_eq perms

/-- Witness for the amended C2: a manifest declaring required permission
"tabs" and optional permission "cookies"; the score counts only the
former. -/
theorem score_from_permissions_entry_only_witness :
    jsonIter (Json.getD
        (.obj [("permissions", Json.arr [Json.str "tabs"]),
               ("optional_permissions", Json.arr [Json.str "cookies"])])
        "permissions" (.arr []))
      = .ok [Json.str "tabs"] ∧
    ({ permissions := Json.arr [Json.str "tabs"],
       permissions_score := score_json_perms [Json.str "tabs"],
       third_party_dependencies := [],
       manifest := some (Json.obj
         [("permissions", Json.arr [Json.str "tabs"]),
          ("optional_permissions", Json.arr [Json.str "cookies"])]) }
        : AnalysisResults).permissions_score
      = (([Json.str "tabs"] : List Json).countP jsonIsRisky) / 2 :=
  ⟨rfl, score_from_permissions_entry_only
    [("permissions", Json.arr [Json.str "tabs"]),
     ("optional_permissions", Json.arr [Json.str "cookies"])]
    [Json.str "tabs"] _ rfl rfl⟩

/-- C5: the claim is right and the code defeats itself.  Inside the `try`
block `_analyze_crx` raises three distinct exceptions — 404 "manifest.json
not found in extension" for a missing manifest, 500 "Invalid manifest.json
format" for a malformed one, 500 "Invalid manifest.json encoding" for an
undecodable one — but the blanket `except Exception` at line 325 catches
all three (fastapi's HTTPException subclasses Exception) and re-raises the
one generic 500 "Extension analysis failed", so the caller sees the same
indistinct error for all three failure modes. -/
theorem manifest_errors_collapse_to_generic :
    analyze_crx_body (.archive ["background.js"] (.parsed .null))
      = .error (.httpException 404 "manifest.json not found in extension") ∧
    analyze_crx_body (.archive ["manifest.json"] .malformed)
      = .error (.httpException 500 "Invalid manifest.json format") ∧
    analyze_crx_body (.archive ["manifest.json"] .undecodable)
      = .error (.httpException 500 "Invalid manifest.json encoding") ∧
    analyze_crx (.archive ["background.js"] (.parsed .null))
      = .error (.httpException 500 "Extension analysis failed") ∧
    analyze_crx (.archive ["manifest.json"] .malformed)
      = .error (.httpException 500 "Extension analysis failed") ∧
    analyze_crx (.archive ["manifest.json"] .undecodable)
      = .error (.httpException 500 "Extension analysis failed") :=
  ⟨rfl, rfl, rfl, rfl, rfl, rfl⟩

/-- C6: a pipeline failure at any stage — store crawl, download, or any
`_analyze_crx` failure (bad archive, missing, malformed or undecodable
manifest) — writes nothing to the cache: the only `_cache_results` call
sits on the full-success path at line 174, after every fallible stage. -/
theorem failed_analysis_leaves_cache_unchanged (env : AnalyzeEnv)
    (extension_id store_name : String) (cache : Cache Json)
    (hfail : (∃ e, env.fetch_store = .error e) ∨
      (∃ e, env.download = .error e) ∨
      (∃ zip file_size file_hash e,
        env.download = .ok (zip, file_size, file_hash) ∧
        analyze_crx zip = .error e)) :
    (analyze_extension env extension_id store_name cache).1 = cache := by
  unfold analyze_extension
  cases hget : cache_get cache (extension_id, store_name) with
  | some cached => rfl
  | none =>
    rcases hfail with ⟨e, he⟩ | ⟨e, he⟩ | ⟨zip, file_size, file_hash, e, hd, ha⟩
    · rw [he]
    · cases hf : env.fetch_store with
      | error e2 => rfl
      | ok store_details => rw [he]
    · cases hf : env.fetch_store with
      | error e2 => rfl
      | ok store_details =>
          rw [hd]
          dsimp only
          rw [ha]

/-- Witness for C6: the end-to-end example of §8 — an archive with no
`manifest.json` entry — run against the empty cache; the cache for the key
remains empty. -/
theorem failed_analysis_leaves_cache_unchanged_witness :
    (analyze_extension no_manifest_env "abcdefgh" "chrome" []).1 = [] :=
  failed_analysis_leaves_cache_unchanged no_manifest_env "abcdefgh" "chrome" []
    (Or.inr (Or.inr ⟨.archive ["background.js"] (.parsed .null), 0, "",
      .httpException 500 "Extension analysis failed", rfl, rfl⟩))

end BrowserExt
